import Mathlib

/-!
# Sports-team REST backend (`server.js`): embedding and verified properties

The eight Express route handlers of `server.js` are embedded as pure functions
from an environment, a store state and a request to a response, a new store
state and the log of statements handed to `pool.query`.

Modelling conventions:

* JavaScript values are scalars (`undefined`, `null`, booleans, integer-valued
  numbers, strings); objects, arrays and fractional numbers are outside the
  model.  Arithmetic on numbers is IEEE-754 double arithmetic (`toDouble`,
  `jsAdd`); how the runtime prints a number is the parameter
  `Env.numberToString`.
* The relational store is four lists of rows in insertion order; a `SELECT`
  without `ORDER BY` returns rows in that order.  SQL `=` is exact equality of
  non-NULL values.
* Every `await pool.query(...)` may reject: `Env.fault k` is the error carried
  by the rejection of the `k`-th query of the request, `none` when it resolves.
  A rejected statement leaves the store unchanged.  The table definitions are
  not part of the repository, so whether the store rejects a statement (a
  duplicate key, a lost connection) is an input, not something computed from
  the rows.
-/

namespace Server

/-! ## Values -/

/-- Scalar JavaScript values of request bodies, query strings and responses. -/
inductive JsVal where
  | undefined
  | null
  | bool (b : Bool)
  | num (n : Int)
  | str (s : String)
  deriving DecidableEq, Repr

/-- JavaScript truthiness, the test behind `!x` and `x || y`. -/
def JsVal.truthy : JsVal → Bool
  | .undefined => false
  | .null => false
  | .bool b => b
  | .num n => decide (n ≠ 0)
  | .str s => decide (s ≠ "")

/-- String conversion used by template literals.  The rendering of a number
(decimal digits, exponent form from 10^21 on) belongs to the JavaScript
runtime and is the parameter `fmt`. -/
def JsVal.toStr (fmt : Int → String) : JsVal → String
  | .undefined => "undefined"
  | .null => "null"
  | .bool true => "true"
  | .bool false => "false"
  | .num n => fmt n
  | .str s => s

/-- Number of halvings that bring `a` below 2^53: the binary exponent of the
last mantissa bit of a double of magnitude `a`. -/
def binaryExponent : Nat → Nat → Nat
  | 0, _ => 0
  | fuel + 1, a => if a < 2 ^ 53 then 0 else binaryExponent fuel (a / 2) + 1

/-- The IEEE-754 double nearest to a natural number, ties to the even
mantissa.  Up to 2^53 every integer is a double; beyond, the 53-bit mantissa
`q` keeps the leading bits and the remainder `r` decides the rounding. -/
def toDoubleNat (a : Nat) : Nat :=
  if a ≤ 2 ^ 53 then a
  else
    let e := binaryExponent 1024 a
    let q := a / 2 ^ e
    let r := a % 2 ^ e
    (if 2 * r < 2 ^ e then q else if 2 ^ e < 2 * r then q + 1 else q + q % 2) * 2 ^ e

/-- The IEEE-754 double nearest to an integer (finite doubles: magnitudes
below 2^1024, which bounds every value a column can hold). -/
def toDouble (x : Int) : Int :=
  if 0 ≤ x then (toDoubleNat x.natAbs : Int) else -(toDoubleNat x.natAbs : Int)

/-- JavaScript `a + b` on integer-valued numbers: the exact sum, rounded to the
nearest double. -/
def jsAdd (a b : Int) : Int := toDouble (a + b)

/-- Values held by a column of the store. -/
inductive SqlVal where
  | null
  | int (n : Int)
  | str (s : String)
  deriving DecidableEq, Repr

/-- Binding of a JavaScript value to a `?` placeholder. -/
def bindParam : JsVal → SqlVal
  | .undefined => .null
  | .null => .null
  | .bool b => .int (if b then 1 else 0)
  | .num n => .int n
  | .str s => .str s

/-- A column value as it appears in a result row. -/
def SqlVal.toJs : SqlVal → JsVal
  | .null => .null
  | .int n => .num n
  | .str s => .str s

/-- SQL `col = value`: true only for equal non-NULL values. -/
def sqlEq (col value : SqlVal) : Bool :=
  decide (col ≠ SqlVal.null ∧ col = value)

/-- A JavaScript object with scalar fields, as an association list. -/
abbrev Obj := List (String × JsVal)

/-- Field access `o.k`; an absent field reads as `undefined`. -/
def Obj.get (o : Obj) (k : String) : JsVal :=
  (o.lookup k).getD JsVal.undefined

/-! ## Store -/

/-- Row of table `users`. -/
structure UserRow where
  id : Int
  name : SqlVal
  email : SqlVal
  password : SqlVal
  role : SqlVal
  deriving DecidableEq, Repr

/-- Row of table `coaches`. -/
structure CoachRow where
  id : Int
  name : SqlVal
  age : SqlVal
  experience : SqlVal
  associated_with : SqlVal
  username : SqlVal
  password : SqlVal
  deriving DecidableEq, Repr

/-- Row of table `teams`. -/
structure TeamRow where
  id : Int
  team_name : SqlVal
  game_type : SqlVal
  location : SqlVal
  coach_id : SqlVal
  deriving DecidableEq, Repr

/-- Row of table `players`. -/
structure PlayerRow where
  id : Int
  player_name : SqlVal
  position : SqlVal
  age : SqlVal
  team : SqlVal
  email : SqlVal
  password : SqlVal
  deriving DecidableEq, Repr

/-- State of the database behind `pool`.  The schema is not part of the
repository: the store-assigned ids of `users`, `teams` and `players` are read
from counters, and the value a new user row gets in column `role` is
`roleDefault`. -/
structure Store where
  users : List UserRow
  coaches : List CoachRow
  teams : List TeamRow
  players : List PlayerRow
  userAuto : Int
  teamAuto : Int
  playerAuto : Int
  roleDefault : SqlVal
  deriving DecidableEq, Repr

/-- The statements of `server.js`, as they are handed to `pool.query`. -/
inductive Stmt where
  | insertUser
  | selectCoachByUsername
  | selectMaxCoachId
  | insertCoach
  | selectCoachLogin
  | selectPlayerLogin
  | insertTeam
  | selectCoachJoinTeam
  | selectPlayerByEmail
  | insertPlayer
  | selectPlayerByName
  | selectUserLogin
  deriving DecidableEq, Repr

/-- The `INSERT` statements. -/
def Stmt.isInsert : Stmt → Bool
  | .insertUser => true
  | .insertCoach => true
  | .insertTeam => true
  | .insertPlayer => true
  | _ => false

/-- Statement `INSERT INTO users (name, email, password) VALUES (?, ?, ?)`. -/
def Store.insertUser (s : Store) (name email password : SqlVal) : Store :=
  { s with
    users := s.users ++ [⟨s.userAuto, name, email, password, s.roleDefault⟩]
    userAuto := s.userAuto + 1 }

/-- Statement `SELECT * FROM coaches WHERE username = ?`. -/
def Store.coachesByUsername (s : Store) (username : SqlVal) : List CoachRow :=
  s.coaches.filter fun c => sqlEq c.username username

/-- Aggregate `MAX` over a column of integers; `none` is SQL NULL (no rows). -/
def maxId : List Int → Option Int
  | [] => none
  | x :: xs =>
    match maxId xs with
    | none => some x
    | some m => some (max x m)

/-- Statement `SELECT MAX(id) AS maxId FROM coaches`. -/
def Store.maxCoachId (s : Store) : Option Int :=
  maxId (s.coaches.map CoachRow.id)

/-- The field `maxIdResult[0].maxId` as the handler sees it: `null` for no
rows, else the column maximum as a JavaScript number. -/
def Store.maxIdResult (s : Store) : Option Int :=
  s.maxCoachId.map toDouble

/-- Statement `INSERT INTO coaches (id, name, age, experience, associated_with, username,
password) VALUES (?, ?, ?, ?, ?, ?, ?)`. -/
def Store.insertCoach (s : Store) (id : Int)
    (name age experience associated_with username password : SqlVal) : Store :=
  { s with
    coaches := s.coaches ++
      [⟨id, name, age, experience, associated_with, username, password⟩] }

/-- Statement `SELECT * FROM coaches WHERE username = ? AND password = ?`. -/
def Store.coachLogin (s : Store) (username password : SqlVal) : List CoachRow :=
  s.coaches.filter fun c => sqlEq c.username username && sqlEq c.password password

/-- Statement `SELECT * FROM players WHERE player_name = ? AND password = ?`. -/
def Store.playerLogin (s : Store) (username password : SqlVal) : List PlayerRow :=
  s.players.filter fun p => sqlEq p.player_name username && sqlEq p.password password

/-- Statement `INSERT INTO teams (team_name, game_type, location, coach_id)
VALUES (?, ?, ?, ?)`. -/
def Store.insertTeam (s : Store) (name game location coached_by : SqlVal) : Store :=
  { s with
    teams := s.teams ++ [⟨s.teamAuto, name, game, location, coached_by⟩]
    teamAuto := s.teamAuto + 1 }

/-- Result row of the coach lookup: the five projected columns. -/
structure CoachInfo where
  name : SqlVal
  experience : SqlVal
  age : SqlVal
  team : SqlVal
  associated_with : SqlVal
  deriving DecidableEq, Repr

/-- Join `coaches LEFT JOIN teams t ON associated_with = t.id`: every coach row is
kept, paired with each team it matches, or with no team when it matches none. -/
def Store.coachLeftJoinTeam (s : Store) : List (CoachRow × Option TeamRow) :=
  s.coaches.flatMap fun c =>
    match s.teams.filter (fun t => sqlEq c.associated_with (SqlVal.int t.id)) with
    | [] => [(c, none)]
    | t :: ts => (t :: ts).map fun t => (c, some t)

/-- Projection `name, experience, age, team_name AS team, associated_with`. -/
def CoachInfo.project (p : CoachRow × Option TeamRow) : CoachInfo :=
  { name := p.1.name
    experience := p.1.experience
    age := p.1.age
    team := match p.2 with
      | some t => t.team_name
      | none => SqlVal.null
    associated_with := p.1.associated_with }

/-- Statement `SELECT name, experience, age, team_name AS team, associated_with
FROM coaches LEFT JOIN teams t ON associated_with = t.id WHERE name = ?`. -/
def Store.coachWithTeam (s : Store) (name : SqlVal) : List CoachInfo :=
  (s.coachLeftJoinTeam.filter fun p => sqlEq p.1.name name).map CoachInfo.project

/-- Statement `SELECT * FROM players WHERE email = ?`. -/
def Store.playersByEmail (s : Store) (email : SqlVal) : List PlayerRow :=
  s.players.filter fun p => sqlEq p.email email

/-- Statement `INSERT INTO players (player_name, position, age, team, email, password)
VALUES (?, ?, ?, ?, ?, ?)`. -/
def Store.insertPlayer (s : Store)
    (name position age team email password : SqlVal) : Store :=
  { s with
    players := s.players ++
      [⟨s.playerAuto, name, position, age, team, email, password⟩]
    playerAuto := s.playerAuto + 1 }

/-- Statement `SELECT * FROM players WHERE player_name = ?`. -/
def Store.playersByName (s : Store) (player_name : SqlVal) : List PlayerRow :=
  s.players.filter fun p => sqlEq p.player_name player_name

/-- Statement `SELECT * FROM users WHERE name = ? AND password = ?`. -/
def Store.userLogin (s : Store) (name password : SqlVal) : List UserRow :=
  s.users.filter fun u => sqlEq u.name name && sqlEq u.password password

/-! ## Requests, responses and the environment -/

/-- A token made by `jwt.sign`: the two payload fields given by the caller, the
issuance time `iat` and the expiry time `exp` (both in seconds), and the key it
is signed with. -/
structure Token where
  userId : JsVal
  role : JsVal
  iat : Nat
  exp : Nat
  key : String
  deriving DecidableEq, Repr

/-- Number of seconds denoted by the time span `1h`. -/
def oneHour : Nat := 60 * 60

/-- Call `jwt.sign(payload, key, options)` with `expiresIn` given in seconds: the
token is issued at the current time and expires `expiresIn` seconds later. -/
def jwtSign (userId role : JsVal) (key : String) (expiresIn now : Nat) : Token :=
  { userId := userId, role := role, iat := now, exp := now + expiresIn, key := key }

/-- A value of a JSON response body. -/
inductive Json where
  | val (v : JsVal)
  | token (t : Token)
  deriving DecidableEq, Repr

/-- A string-valued body field. -/
def Json.text (s : String) : Json := Json.val (JsVal.str s)

/-- What `res.status(code).json(body)` sends. -/
structure Response where
  status : Nat
  body : List (String × Json)
  deriving DecidableEq, Repr

/-- The request parts the handlers read. -/
structure Request where
  body : Obj
  query : Obj
  params : Obj
  deriving DecidableEq, Repr

/-- What surrounds one run of a handler: which of its queries reject and with
what error message, the clock (seconds), `process.env.JWT_SECRET_KEY` and the
runtime's conversion of a number to a string. -/
structure Env where
  fault : Nat → Option String
  now : Nat
  JWT_SECRET_KEY : Option String
  numberToString : Int → String

/-- Result of running a handler: the response sent, the store afterwards and
the statements handed to `pool.query`, in order. -/
structure Outcome where
  res : Response
  store : Store
  log : List Stmt
  deriving DecidableEq, Repr

/-! ## Route handlers -/

/-- Handler of `POST /signup`. -/
def signup (env : Env) (s : Store) (req : Request) : Outcome :=
  let name := req.body.get "name"
  let email := req.body.get "email"
  let password := req.body.get "password"
  if !name.truthy || !email.truthy || !password.truthy then
    ⟨⟨400, [("message", Json.text "All fields are required.")]⟩, s, []⟩
  else
    match env.fault 0 with
    | none =>
      ⟨⟨201, [("message", Json.text "Signup successful!")]⟩,
        s.insertUser (bindParam name) (bindParam email) (bindParam password),
        [Stmt.insertUser]⟩
    | some _ =>
      ⟨⟨500, [("message", Json.text "An error occurred during signup.")]⟩, s,
        [Stmt.insertUser]⟩

/-- The new id `(maxId || 0) + 1` for a `maxId` that is a number or `null`;
the sum is a sum of doubles. -/
def nextCoachId (maxId : Option Int) : Int :=
  jsAdd (match maxId with
    | some m => if m ≠ 0 then m else 0
    | none => 0) 1

/-- Handler of `POST /add-coach`. -/
def addCoach (env : Env) (s : Store) (req : Request) : Outcome :=
  let name := req.body.get "name"
  let age := req.body.get "age"
  let experience := req.body.get "experience"
  let associated_with := req.body.get "associated_with"
  let username := req.body.get "username"
  let password := req.body.get "password"
  if !name.truthy || !age.truthy || !experience.truthy || !associated_with.truthy
      || !username.truthy || !password.truthy then
    ⟨⟨400, [("message", Json.text "All fields are required.")]⟩, s, []⟩
  else
    match env.fault 0 with
    | some e =>
      ⟨⟨500, [("message", Json.text "An error occurred while adding the coach."),
          ("error", Json.text e)]⟩, s, [Stmt.selectCoachByUsername]⟩
    | none =>
      let existingUser := s.coachesByUsername (bindParam username)
      if existingUser.length > 0 then
        ⟨⟨400, [("message", Json.text "Username already exists.")]⟩, s,
          [Stmt.selectCoachByUsername]⟩
      else
        match env.fault 1 with
        | some e =>
          ⟨⟨500, [("message", Json.text "An error occurred while adding the coach."),
              ("error", Json.text e)]⟩, s,
            [Stmt.selectCoachByUsername, Stmt.selectMaxCoachId]⟩
        | none =>
          let newId := nextCoachId s.maxIdResult
          match env.fault 2 with
          | some e =>
            ⟨⟨500, [("message", Json.text "An error occurred while adding the coach."),
                ("error", Json.text e)]⟩, s,
              [Stmt.selectCoachByUsername, Stmt.selectMaxCoachId, Stmt.insertCoach]⟩
          | none =>
            ⟨⟨201, [("message", Json.text "Coach added successfully!"),
                ("coachId", Json.val (JsVal.num newId))]⟩,
              s.insertCoach newId (bindParam name) (bindParam age) (bindParam experience)
                (bindParam associated_with) (bindParam username) (bindParam password),
              [Stmt.selectCoachByUsername, Stmt.selectMaxCoachId, Stmt.insertCoach]⟩

/-- Handler of `POST /login`. -/
def login (env : Env) (s : Store) (req : Request) : Outcome :=
  let username := req.body.get "username"
  let password := req.body.get "password"
  let role := req.body.get "role"
  if !username.truthy || !password.truthy || !role.truthy then
    ⟨⟨400, [("message", Json.text "All fields are required.")]⟩, s, []⟩
  else if role = JsVal.str "coach" then
    match env.fault 0 with
    | some _ =>
      ⟨⟨500, [("message", Json.text "Internal server error.")]⟩, s, [Stmt.selectCoachLogin]⟩
    | none =>
      let results := s.coachLogin (bindParam username) (bindParam password)
      if results.length > 0 then
        ⟨⟨200, [("message", Json.text ("Welcome, " ++ username.toStr env.numberToString ++ "!")),
            ("role", Json.val role)]⟩, s, [Stmt.selectCoachLogin]⟩
      else
        ⟨⟨401, [("message", Json.text "Invalid credentials.")]⟩, s, [Stmt.selectCoachLogin]⟩
  else if role = JsVal.str "player" then
    match env.fault 0 with
    | some _ =>
      ⟨⟨500, [("message", Json.text "Internal server error.")]⟩, s, [Stmt.selectPlayerLogin]⟩
    | none =>
      let results := s.playerLogin (bindParam username) (bindParam password)
      if results.length > 0 then
        ⟨⟨200, [("message", Json.text ("Welcome, " ++ username.toStr env.numberToString ++ "!")),
            ("role", Json.val role)]⟩, s, [Stmt.selectPlayerLogin]⟩
      else
        ⟨⟨401, [("message", Json.text "Invalid credentials.")]⟩, s, [Stmt.selectPlayerLogin]⟩
  else
    ⟨⟨400, [("message", Json.text "Invalid role.")]⟩, s, []⟩

/-- Handler of `POST /add-team`; `result.insertId` is the id the store gave
the new row. -/
def addTeam (env : Env) (s : Store) (req : Request) : Outcome :=
  let name := req.body.get "name"
  let game := req.body.get "game"
  let location := req.body.get "location"
  let coached_by := req.body.get "coached_by"
  if !name.truthy || !game.truthy || !location.truthy || !coached_by.truthy then
    ⟨⟨400, [("message", Json.text "All fields are required.")]⟩, s, []⟩
  else
    match env.fault 0 with
    | none =>
      ⟨⟨201, [("message", Json.text "Team added successfully!"),
          ("teamId", Json.val (JsVal.num s.teamAuto))]⟩,
        s.insertTeam (bindParam name) (bindParam game) (bindParam location)
          (bindParam coached_by),
        [Stmt.insertTeam]⟩
    | some _ =>
      ⟨⟨500, [("message", Json.text "Internal server error.")]⟩, s, [Stmt.insertTeam]⟩

/-- JSON rendering of a coach lookup row. -/
def CoachInfo.toJson (r : CoachInfo) : List (String × Json) :=
  [("name", Json.val r.name.toJs), ("experience", Json.val r.experience.toJs),
   ("age", Json.val r.age.toJs), ("team", Json.val r.team.toJs),
   ("associated_with", Json.val r.associated_with.toJs)]

/-- Handler of `GET /api/coach`. -/
def apiCoach (env : Env) (s : Store) (req : Request) : Outcome :=
  let coachName := req.query.get "name"
  if !coachName.truthy then
    ⟨⟨400, [("error", Json.text "Coach name is required")]⟩, s, []⟩
  else
    match env.fault 0 with
    | some _ =>
      ⟨⟨500, [("error", Json.text "Internal Server Error")]⟩, s, [Stmt.selectCoachJoinTeam]⟩
    | none =>
      match s.coachWithTeam (bindParam coachName) with
      | [] => ⟨⟨404, [("error", Json.text "Coach not found")]⟩, s, [Stmt.selectCoachJoinTeam]⟩
      | r :: _ => ⟨⟨200, r.toJson⟩, s, [Stmt.selectCoachJoinTeam]⟩

/-- JSON rendering of a full `players` row. -/
def PlayerRow.toJson (r : PlayerRow) : List (String × Json) :=
  [("id", Json.val (JsVal.num r.id)), ("player_name", Json.val r.player_name.toJs),
   ("position", Json.val r.position.toJs), ("age", Json.val r.age.toJs),
   ("team", Json.val r.team.toJs), ("email", Json.val r.email.toJs),
   ("password", Json.val r.password.toJs)]

/-- Handler of `POST /add-player`. -/
def addPlayer (env : Env) (s : Store) (req : Request) : Outcome :=
  let name := req.body.get "name"
  let position := req.body.get "position"
  let age := req.body.get "age"
  let team := req.body.get "team"
  let email := req.body.get "email"
  let password := req.body.get "password"
  if !name.truthy || !position.truthy || !age.truthy || !team.truthy
      || !email.truthy || !password.truthy then
    ⟨⟨400, [("message", Json.text "All fields are required.")]⟩, s, []⟩
  else
    match env.fault 0 with
    | some _ =>
      ⟨⟨500, [("message", Json.text "Internal server error.")]⟩, s,
        [Stmt.selectPlayerByEmail]⟩
    | none =>
      let existingPlayer := s.playersByEmail (bindParam email)
      if existingPlayer.length > 0 then
        ⟨⟨400, [("message",
            Json.text "Email already exists. Please use a different email.")]⟩, s,
          [Stmt.selectPlayerByEmail]⟩
      else
        match env.fault 1 with
        | some _ =>
          ⟨⟨500, [("message", Json.text "Internal server error.")]⟩, s,
            [Stmt.selectPlayerByEmail, Stmt.insertPlayer]⟩
        | none =>
          ⟨⟨201, [("message", Json.text "Player added successfully!"),
              ("playerId", Json.val (JsVal.num s.playerAuto))]⟩,
            s.insertPlayer (bindParam name) (bindParam position) (bindParam age)
              (bindParam team) (bindParam email) (bindParam password),
            [Stmt.selectPlayerByEmail, Stmt.insertPlayer]⟩

/-- Handler of `GET /api/player/:player_name`. -/
def apiPlayer (env : Env) (s : Store) (req : Request) : Outcome :=
  let player_name := req.params.get "player_name"
  match env.fault 0 with
  | some _ =>
    ⟨⟨500, [("message", Json.text "Internal server error.")]⟩, s, [Stmt.selectPlayerByName]⟩
  | none =>
    match s.playersByName (bindParam player_name) with
    | [] => ⟨⟨404, [("message", Json.text "Player not found")]⟩, s, [Stmt.selectPlayerByName]⟩
    | r :: _ => ⟨⟨200, r.toJson⟩, s, [Stmt.selectPlayerByName]⟩

/-- The signing key `process.env.JWT_SECRET_KEY || 'fallback_secret_key'`. -/
def signingKey (env : Env) : String :=
  match env.JWT_SECRET_KEY with
  | some k => if k ≠ "" then k else "fallback_secret_key"
  | none => "fallback_secret_key"

/-- Handler of `POST /initial_login`. -/
def initialLogin (env : Env) (s : Store) (req : Request) : Outcome :=
  let name := req.body.get "name"
  let password := req.body.get "password"
  if !name.truthy || !password.truthy then
    ⟨⟨400, [("message", Json.text "Name and password are required.")]⟩, s, []⟩
  else
    match env.fault 0 with
    | some _ =>
      ⟨⟨500, [("message", Json.text "Internal server error.")]⟩, s, [Stmt.selectUserLogin]⟩
    | none =>
      match s.userLogin (bindParam name) (bindParam password) with
      | u :: _ =>
        let token := jwtSign (JsVal.num u.id) u.role.toJs (signingKey env) oneHour env.now
        ⟨⟨200, [("message", Json.text ("Welcome, " ++ name.toStr env.numberToString ++ "!")),
            ("token", Json.token token)]⟩, s, [Stmt.selectUserLogin]⟩
      | [] =>
        ⟨⟨401, [("message", Json.text "Invalid credentials.")]⟩, s, [Stmt.selectUserLogin]⟩

/-- The eight routes registered on `app`. -/
inductive Route where
  | signup
  | addCoach
  | login
  | addTeam
  | apiCoach
  | addPlayer
  | apiPlayer
  | initialLogin
  deriving DecidableEq, Repr

/-- Dispatch of a request to the handler registered for its route. -/
def handle (r : Route) (env : Env) (s : Store) (req : Request) : Outcome :=
  match r with
  | .signup => signup env s req
  | .addCoach => addCoach env s req
  | .login => login env s req
  | .addTeam => addTeam env s req
  | .apiCoach => apiCoach env s req
  | .addPlayer => addPlayer env s req
  | .apiPlayer => apiPlayer env s req
  | .initialLogin => initialLogin env s req

/-! ## Interleaved execution of two add-coach handlers

A handler gives up control only at an `await pool.query(...)`.  Between two
such points its code touches no shared state, so one step of a handler is: the
store executes the pending statement and the handler runs on to its next
`await` or to its response. -/

/-- Control point of a run of the `POST /add-coach` handler. -/
inductive CoachTask where
  | fresh
  | checked
  | gotMax (newId : Int)
  | done (res : Response)
  deriving DecidableEq, Repr

/-- One step of the `POST /add-coach` handler: from the start through the
username pre-check, then the `MAX(id)` read, then the `INSERT`. -/
def addCoachStep (env : Env) (req : Request) (t : CoachTask) (s : Store) :
    CoachTask × Store :=
  let name := req.body.get "name"
  let age := req.body.get "age"
  let experience := req.body.get "experience"
  let associated_with := req.body.get "associated_with"
  let username := req.body.get "username"
  let password := req.body.get "password"
  match t with
  | .fresh =>
    if !name.truthy || !age.truthy || !experience.truthy || !associated_with.truthy
        || !username.truthy || !password.truthy then
      (.done ⟨400, [("message", Json.text "All fields are required.")]⟩, s)
    else
      match env.fault 0 with
      | some e =>
        (.done ⟨500, [("message", Json.text "An error occurred while adding the coach."),
          ("error", Json.text e)]⟩, s)
      | none =>
        if (s.coachesByUsername (bindParam username)).length > 0 then
          (.done ⟨400, [("message", Json.text "Username already exists.")]⟩, s)
        else (.checked, s)
  | .checked =>
    match env.fault 1 with
    | some e =>
      (.done ⟨500, [("message", Json.text "An error occurred while adding the coach."),
        ("error", Json.text e)]⟩, s)
    | none => (.gotMax (nextCoachId s.maxIdResult), s)
  | .gotMax newId =>
    match env.fault 2 with
    | some e =>
      (.done ⟨500, [("message", Json.text "An error occurred while adding the coach."),
        ("error", Json.text e)]⟩, s)
    | none =>
      (.done ⟨201, [("message", Json.text "Coach added successfully!"),
          ("coachId", Json.val (JsVal.num newId))]⟩,
        s.insertCoach newId (bindParam name) (bindParam age) (bindParam experience)
          (bindParam associated_with) (bindParam username) (bindParam password))
  | .done res => (.done res, s)

/-- Two runs of the add-coach handler, `a` and `b`, over one store. -/
structure Race where
  a : CoachTask
  b : CoachTask
  store : Store
  deriving DecidableEq, Repr

/-- One step of the pair: run `b` moves when `who` is true, run `a` otherwise. -/
def raceStep (envA envB : Env) (reqA reqB : Request) (c : Race) (who : Bool) : Race :=
  if who then
    ⟨c.a, (addCoachStep envB reqB c.b c.store).1, (addCoachStep envB reqB c.b c.store).2⟩
  else
    ⟨(addCoachStep envA reqA c.a c.store).1, c.b, (addCoachStep envA reqA c.a c.store).2⟩

/-- The pair run under a schedule, both handlers starting on store `s`. -/
def raceRun (envA envB : Env) (reqA reqB : Request) (s : Store) (sched : List Bool) : Race :=
  sched.foldl (raceStep envA envB reqA reqB) ⟨CoachTask.fresh, CoachTask.fresh, s⟩

/-- Schedules of the six steps of two handler runs in which both `MAX(id)`
reads come before either `INSERT`: the first four steps are the pre-check and
the read of each run, the last two are the two inserts. -/
def readsBeforeInserts (sched : List Bool) : Bool :=
  sched.length == 6 && (sched.take 4).count true == 2 && (sched.drop 4).count true == 1

/-- Response of a run whose `INSERT` of id `n` the store accepts. -/
def created (n : Int) : Response :=
  ⟨201, [("message", Json.text "Coach added successfully!"),
    ("coachId", Json.val (JsVal.num n))]⟩

/-! ## Vocabulary of the properties -/

/-- The body fields each registration route requires. -/
def requiredFields : Route → List String
  | .signup => ["name", "email", "password"]
  | .addCoach => ["name", "age", "experience", "associated_with", "username", "password"]
  | .addTeam => ["name", "game", "location", "coached_by"]
  | .addPlayer => ["name", "position", "age", "team", "email", "password"]
  | _ => []

/-- The four registration routes. -/
def registrationRoutes : List Route :=
  [Route.signup, Route.addCoach, Route.addTeam, Route.addPlayer]

/-- Every required field of route `r` is present and non-empty in the body. -/
def FieldsPresent (r : Route) (req : Request) : Prop :=
  ∀ k ∈ requiredFields r, (req.body.get k).truthy = true

instance (r : Route) (req : Request) : Decidable (FieldsPresent r req) := by
  unfold FieldsPresent; infer_instance

/-- The number `m` is the maximum id of the coaches table: some row has it and
no row has a larger one. -/
def IsMaxCoachId (s : Store) (m : Int) : Prop :=
  (∃ c ∈ s.coaches, c.id = m) ∧ ∀ c ∈ s.coaches, c.id ≤ m

/-- The coach row `POST /add-coach` builds from a request body and an id. -/
def coachRowOf (id : Int) (body : Obj) : CoachRow :=
  { id := id
    name := bindParam (body.get "name")
    age := bindParam (body.get "age")
    experience := bindParam (body.get "experience")
    associated_with := bindParam (body.get "associated_with")
    username := bindParam (body.get "username")
    password := bindParam (body.get "password") }

/-- The row matches the credential pair of a coach login. -/
def CoachRow.hasCredentials (c : CoachRow) (username password : JsVal) : Prop :=
  c.username = bindParam username ∧ c.password = bindParam password

/-- The row matches the credential pair of a player login. -/
def PlayerRow.hasCredentials (p : PlayerRow) (username password : JsVal) : Prop :=
  p.player_name = bindParam username ∧ p.password = bindParam password

/-- The row matches the credential pair of an initial login. -/
def UserRow.hasCredentials (u : UserRow) (name password : JsVal) : Prop :=
  u.name = bindParam name ∧ u.password = bindParam password

/-- The response is one of the failure responses: 400, 401, 404 or 500. -/
def Response.isFailure (res : Response) : Bool :=
  res.status == 400 || res.status == 401 || res.status == 404 || res.status == 500

/-- The body carries a `message` field holding a string. -/
def Response.hasMessage (res : Response) : Prop :=
  ∃ m : String, res.body.lookup "message" = some (Json.text m)

/-- The store invariant of sequential operation: coach ids, coach usernames and
player emails are pairwise distinct. -/
def StoreInv (s : Store) : Prop :=
  (s.coaches.map CoachRow.id).Nodup ∧ (s.coaches.map CoachRow.username).Nodup ∧
    (s.players.map PlayerRow.email).Nodup

instance (s : Store) : Decidable (StoreInv s) := by
  unfold StoreInv; infer_instance

/-- Every coach id is a safe integer: its magnitude is below 2^53, so that it
and its successor are doubles. -/
def SafeIds (s : Store) : Prop :=
  ∀ c ∈ s.coaches, c.id.natAbs < 2 ^ 53

instance (s : Store) : Decidable (SafeIds s) := by
  unfold SafeIds; infer_instance

/-! ## Sample data -/

/-- An environment in which every query resolves.  Its number rendering is
the decimal one, which is the runtime's for magnitudes below 10^21. -/
def quietEnv : Env := ⟨fun _ => none, 1700000000, none, fun n => toString n⟩

/-- An environment in which every query is rejected with `ECONNREFUSED`; the
number rendering is that of `quietEnv`. -/
def downEnv : Env := ⟨fun _ => some "ECONNREFUSED", 1700000000, none, fun n => toString n⟩

/-- A store with one coach, one player that shares the coach's credentials,
one user and one team. -/
def sampleStore : Store :=
  { users := [⟨7, SqlVal.str "root", SqlVal.str "root@x.io", SqlVal.str "pw", SqlVal.str "admin"⟩]
    coaches := [⟨4, SqlVal.str "Ann", SqlVal.int 40, SqlVal.int 9, SqlVal.int 99,
      SqlVal.str "ann", SqlVal.str "s3"⟩]
    teams := [⟨1, SqlVal.str "Lions", SqlVal.str "cricket", SqlVal.str "Pune", SqlVal.int 4⟩]
    players := [⟨2, SqlVal.str "ann", SqlVal.str "keeper", SqlVal.int 20, SqlVal.str "Lions",
      SqlVal.str "ann@x.io", SqlVal.str "s3"⟩]
    userAuto := 8
    teamAuto := 2
    playerAuto := 3
    roleDefault := SqlVal.null }

/-- A store whose only coach has the credentials of the sample store's coach
but is another person. -/
def otherStore : Store :=
  { sampleStore with
    coaches := [⟨5, SqlVal.str "Zed", SqlVal.int 52, SqlVal.int 20, SqlVal.int 1,
      SqlVal.str "ann", SqlVal.str "s3"⟩] }

/-- A store whose only coach has id 2^53 = 9007199254740992, the first integer
whose successor is not a double. -/
def bigStore : Store :=
  { sampleStore with
    coaches := [⟨9007199254740992, SqlVal.str "Ann", SqlVal.int 40, SqlVal.int 9, SqlVal.int 99,
      SqlVal.str "ann", SqlVal.str "s3"⟩] }

/-- A request with the given body and nothing else. -/
def post (body : Obj) : Request := ⟨body, [], []⟩

/-- A request with the given query string and nothing else. -/
def getQuery (query : Obj) : Request := ⟨[], query, []⟩

/-- Body of an add-coach request that repeats the username `ann`. -/
def coachBody : Obj :=
  [("name", JsVal.str "Bob"), ("age", JsVal.num 31), ("experience", JsVal.num 3),
   ("associated_with", JsVal.num 1), ("username", JsVal.str "ann"),
   ("password", JsVal.str "pw")]

/-- Body of an add-coach request with a fresh username. -/
def freshCoachBody : Obj :=
  [("name", JsVal.str "Bob"), ("age", JsVal.num 31), ("experience", JsVal.num 3),
   ("associated_with", JsVal.num 1), ("username", JsVal.str "bob"),
   ("password", JsVal.str "pw")]

/-- Body of a second add-coach request, with another fresh username. -/
def secondCoachBody : Obj :=
  [("name", JsVal.str "Cy"), ("age", JsVal.num 45), ("experience", JsVal.num 12),
   ("associated_with", JsVal.num 1), ("username", JsVal.str "cy"),
   ("password", JsVal.str "pw")]

/-- Body of an add-player request that repeats the email `ann@x.io`. -/
def playerBody : Obj :=
  [("name", JsVal.str "Cy"), ("position", JsVal.str "bowler"), ("age", JsVal.num 19),
   ("team", JsVal.str "Lions"), ("email", JsVal.str "ann@x.io"),
   ("password", JsVal.str "pw")]

/-- Body of a login request for `ann` under the given role. -/
def loginBody (role : String) : Obj :=
  [("username", JsVal.str "ann"), ("password", JsVal.str "s3"), ("role", JsVal.str role)]

/-- Body of an initial-login request of user `root`. -/
def rootBody : Obj := [("name", JsVal.str "root"), ("password", JsVal.str "pw")]

/-- Request `GET /api/coach?name=Ann`. -/
def annQuery : Request := getQuery [("name", JsVal.str "Ann")]

/-! ## Basic facts -/

theorem truthy_bindParam_ne_null {v : JsVal} (h : v.truthy = true) :
    bindParam v ≠ SqlVal.null := by
  cases v <;> simp_all [JsVal.truthy, bindParam]

theorem sqlEq_self {v : SqlVal} (h : v ≠ SqlVal.null) : sqlEq v v = true := by
  simp [sqlEq, h]

theorem sqlEq_eq_true {a b : SqlVal} : sqlEq a b = true ↔ a ≠ SqlVal.null ∧ a = b := by
  simp [sqlEq]

theorem sqlEq_bindParam {c : SqlVal} {v : JsVal} (h : v.truthy = true) :
    sqlEq c (bindParam v) = true ↔ c = bindParam v := by
  constructor
  · intro hc
    exact (sqlEq_eq_true.mp hc).2
  · intro hc
    rw [hc]
    exact sqlEq_self (truthy_bindParam_ne_null h)

theorem filter_cons_find {α : Type} (p : α → Bool) (l : List α) (x : α) (xs : List α)
    (h : l.filter p = x :: xs) : l.find? p = some x := by
  induction l with
  | nil => simp at h
  | cons a l ih =>
    by_cases hp : p a = true
    · simp only [List.filter_cons, hp, if_true, List.cons.injEq] at h
      obtain ⟨rfl, -⟩ := h
      simp [List.find?_cons, hp]
    · simp only [List.filter_cons, hp] at h
      simp only [List.find?_cons, Bool.not_eq_true] at hp ⊢
      rw [hp]
      exact ih h

theorem find_filter_cons {α : Type} (p : α → Bool) (l : List α) (x : α)
    (h : l.find? p = some x) : ∃ xs, l.filter p = x :: xs := by
  induction l with
  | nil => simp at h
  | cons a l ih =>
    by_cases hp : p a = true
    · simp only [List.find?_cons, hp, Option.some.injEq] at h
      subst h
      exact ⟨l.filter p, by simp [List.filter_cons, hp]⟩
    · simp only [Bool.not_eq_true] at hp
      simp only [List.find?_cons, hp] at h
      obtain ⟨xs, hxs⟩ := ih h
      exact ⟨xs, by simp [List.filter_cons, hp, hxs]⟩

theorem exists_find_of_mem {α : Type} (p : α → Bool) (l : List α) (a : α)
    (ha : a ∈ l) (hp : p a = true) : ∃ x, l.find? p = some x := by
  cases h : l.find? p with
  | some x => exact ⟨x, rfl⟩
  | none =>
    rw [List.find?_eq_none] at h
    exact absurd hp (h a ha)

theorem maxId_eq_none {l : List Int} : maxId l = none ↔ l = [] := by
  cases l with
  | nil => simp [maxId]
  | cons x xs =>
    simp only [maxId, reduceCtorEq, iff_false]
    cases maxId xs <;> simp

theorem maxId_eq_some {l : List Int} {m : Int} (h : maxId l = some m) :
    m ∈ l ∧ ∀ x ∈ l, x ≤ m := by
  induction l generalizing m with
  | nil => simp [maxId] at h
  | cons x xs ih =>
    simp only [maxId] at h
    cases hxs : maxId xs with
    | none =>
      rw [hxs] at h
      simp only [Option.some.injEq] at h
      rw [maxId_eq_none] at hxs
      subst hxs h
      simp
    | some k =>
      rw [hxs] at h
      simp only [Option.some.injEq] at h
      obtain ⟨hk, hle⟩ := ih hxs
      subst h
      constructor
      · rcases le_total x k with hxk | hxk
        · rw [max_eq_right hxk]
          exact List.mem_cons_of_mem _ hk
        · rw [max_eq_left hxk]
          exact List.mem_cons_self _ _
      · intro y hy
        rcases List.mem_cons.mp hy with rfl | hy
        · exact le_max_left _ _
        · exact le_trans (hle y hy) (le_max_right _ _)

theorem toDouble_of_natAbs_le (x : Int) (h : x.natAbs ≤ 2 ^ 53) : toDouble x = x := by
  unfold toDouble toDoubleNat
  rw [if_pos h]
  split <;> omega

theorem nextCoachId_some (m : Int) (h : m.natAbs < 2 ^ 53) :
    nextCoachId (some m) = m + 1 := by
  unfold nextCoachId jsAdd
  by_cases h0 : m = 0
  · subst h0
    simpa using toDouble_of_natAbs_le 1 (by decide)
  · simp only [ne_eq, h0, not_false_eq_true, if_true]
    exact toDouble_of_natAbs_le (m + 1) (by omega)

theorem maxIdResult_of_safe (s : Store) (h : SafeIds s) : s.maxIdResult = s.maxCoachId := by
  unfold Store.maxIdResult
  cases hmax : s.maxCoachId with
  | none => rfl
  | some k =>
    obtain ⟨c, hc, hck⟩ := List.mem_map.mp (maxId_eq_some hmax).1
    have hk := h c hc
    rw [hck] at hk
    simp only [Option.map_some', Option.some.injEq]
    exact toDouble_of_natAbs_le k (by omega)

theorem nextCoachId_gt (s : Store) (h : SafeIds s) :
    ∀ c ∈ s.coaches, c.id < nextCoachId s.maxIdResult := by
  intro c hc
  rw [maxIdResult_of_safe s h]
  cases hmax : s.maxCoachId with
  | none =>
    rw [Store.maxCoachId, maxId_eq_none] at hmax
    simp only [List.map_eq_nil_iff] at hmax
    rw [hmax] at hc
    simp at hc
  | some m =>
    obtain ⟨d, hd, hdm⟩ := List.mem_map.mp (maxId_eq_some hmax).1
    have hm := h d hd
    rw [hdm] at hm
    rw [nextCoachId_some m hm]
    have := (maxId_eq_some hmax).2 c.id (List.mem_map_of_mem _ hc)
    omega

theorem nextCoachId_of_empty (s : Store) (h : s.coaches = []) :
    nextCoachId s.maxIdResult = 1 := by
  have h1 : toDouble 1 = 1 := toDouble_of_natAbs_le 1 (by decide)
  simpa [Store.maxIdResult, Store.maxCoachId, h, maxId, nextCoachId, jsAdd] using h1

theorem nextCoachId_of_max (s : Store) (m : Int) (h : IsMaxCoachId s m)
    (hm : m.natAbs < 2 ^ 53) : nextCoachId s.maxIdResult = m + 1 := by
  obtain ⟨⟨c, hc, hcm⟩, hle⟩ := h
  cases hmax : s.maxCoachId with
  | none =>
    rw [Store.maxCoachId, maxId_eq_none, List.map_eq_nil_iff] at hmax
    rw [hmax] at hc
    simp at hc
  | some k =>
    obtain ⟨hk, hkle⟩ := maxId_eq_some hmax
    obtain ⟨d, hd, hdk⟩ := List.mem_map.mp hk
    have a1 := hle d hd
    have a2 := hkle c.id (List.mem_map_of_mem _ hc)
    have hkm : k = m := by omega
    subst hkm
    rw [Store.maxIdResult, hmax, Option.map_some', toDouble_of_natAbs_le k (by omega)]
    exact nextCoachId_some k hm

/-! ## Field validation of the registration routes -/

/-- C1: on each of the four registration routes, a body in which some required
field is absent or falsy is answered 400, no statement at all (hence no INSERT)
is handed to the pool, and the store is unchanged. -/
theorem registration_rejects_missing_field (r : Route) (env : Env) (s : Store)
    (req : Request) (k : String) (hr : r ∈ registrationRoutes)
    (hk : k ∈ requiredFields r) (hf : (req.body.get k).truthy = false) :
    (handle r env s req).res.status = 400 ∧
      (∀ q ∈ (handle r env s req).log, q.isInsert = false) ∧
      (handle r env s req).store = s := by
  cases r <;> simp [registrationRoutes] at hr <;>
    simp only [requiredFields, List.mem_cons, List.mem_singleton, List.not_mem_nil,
      or_false] at hk <;>
    rcases hk with rfl | rfl | rfl | rfl | rfl | rfl <;>
    simp [handle, signup, addCoach, addTeam, addPlayer, hf]

/-- Witness of C1: `POST /add-team` with an empty `location`. -/
theorem registration_rejects_missing_field_witness :
    (handle Route.addTeam ⟨fun _ => none, 0, none, fun n => toString n⟩ ⟨[], [], [], [], 1, 1, 1, SqlVal.null⟩
        ⟨[("name", JsVal.str "Lions"), ("game", JsVal.str "cricket"),
          ("location", JsVal.str ""), ("coached_by", JsVal.num 1)], [], []⟩).res.status = 400 ∧
      (∀ q ∈ (handle Route.addTeam ⟨fun _ => none, 0, none, fun n => toString n⟩
        ⟨[], [], [], [], 1, 1, 1, SqlVal.null⟩
        ⟨[("name", JsVal.str "Lions"), ("game", JsVal.str "cricket"),
          ("location", JsVal.str ""), ("coached_by", JsVal.num 1)], [], []⟩).log,
          q.isInsert = false) ∧
      (handle Route.addTeam ⟨fun _ => none, 0, none, fun n => toString n⟩ ⟨[], [], [], [], 1, 1, 1, SqlVal.null⟩
        ⟨[("name", JsVal.str "Lions"), ("game", JsVal.str "cricket"),
          ("location", JsVal.str ""), ("coached_by", JsVal.num 1)], [], []⟩).store =
        ⟨[], [], [], [], 1, 1, 1, SqlVal.null⟩ :=
  registration_rejects_missing_field Route.addTeam _ _ _ "location"
    (by decide) (by decide) (by decide)

/-! ## Uniqueness pre-checks -/

/-- C2: when the pre-check query resolves, `POST /add-coach` with all required
fields and a username some coach row already has is answered 400 and leaves the
coaches table as it was; likewise `POST /add-player` with an email some player
row already has is answered 400 and leaves the players table as it was. -/
theorem duplicate_is_rejected (env : Env) (s : Store) (req : Request)
    (hq : env.fault 0 = none) :
    (FieldsPresent Route.addCoach req →
      (∃ c ∈ s.coaches, c.username = bindParam (req.body.get "username")) →
      (addCoach env s req).res.status = 400 ∧
        (addCoach env s req).store.coaches = s.coaches ∧
        (addCoach env s req).store.coaches.length = s.coaches.length) ∧
    (FieldsPresent Route.addPlayer req →
      (∃ p ∈ s.players, p.email = bindParam (req.body.get "email")) →
      (addPlayer env s req).res.status = 400 ∧
        (addPlayer env s req).store.players = s.players ∧
        (addPlayer env s req).store.players.length = s.players.length) := by
  constructor
  · intro hp ⟨c, hc, hu⟩
    simp only [FieldsPresent, requiredFields, List.forall_mem_cons] at hp
    obtain ⟨h1, h2, h3, h4, h5, h6, -⟩ := hp
    have hne : (s.coachesByUsername (bindParam (req.body.get "username"))).length > 0 := by
      apply List.length_pos.mpr
      intro hnil
      simp only [Store.coachesByUsername, List.filter_eq_nil_iff] at hnil
      exact hnil c hc (by rw [hu]; exact sqlEq_self (truthy_bindParam_ne_null h5))
    simp [addCoach, h1, h2, h3, h4, h5, h6, hq, hne]
  · intro hp ⟨c, hc, hu⟩
    simp only [FieldsPresent, requiredFields, List.forall_mem_cons] at hp
    obtain ⟨h1, h2, h3, h4, h5, h6, -⟩ := hp
    have hne : (s.playersByEmail (bindParam (req.body.get "email"))).length > 0 := by
      apply List.length_pos.mpr
      intro hnil
      simp only [Store.playersByEmail, List.filter_eq_nil_iff] at hnil
      exact hnil c hc (by rw [hu]; exact sqlEq_self (truthy_bindParam_ne_null h5))
    simp [addPlayer, h1, h2, h3, h4, h5, h6, hq, hne]

/-- Witness of C2 on the sample store: a repeated username and a repeated
email. -/
theorem duplicate_is_rejected_witness :
    (quietEnv.fault 0 = none ∧ FieldsPresent Route.addCoach (post coachBody) ∧
      FieldsPresent Route.addPlayer (post playerBody)) ∧
    ((addCoach quietEnv sampleStore (post coachBody)).res.status = 400 ∧
      (addCoach quietEnv sampleStore (post coachBody)).store.coaches = sampleStore.coaches ∧
      (addCoach quietEnv sampleStore (post coachBody)).store.coaches.length =
        sampleStore.coaches.length) ∧
    ((addPlayer quietEnv sampleStore (post playerBody)).res.status = 400 ∧
      (addPlayer quietEnv sampleStore (post playerBody)).store.players = sampleStore.players ∧
      (addPlayer quietEnv sampleStore (post playerBody)).store.players.length =
        sampleStore.players.length) :=
  ⟨⟨rfl, by decide, by decide⟩,
    (duplicate_is_rejected quietEnv sampleStore (post coachBody) rfl).1 (by decide)
      ⟨_, List.mem_singleton_self _, rfl⟩,
    (duplicate_is_rejected quietEnv sampleStore (post playerBody) rfl).2 (by decide)
      ⟨_, List.mem_singleton_self _, rfl⟩⟩

/-! ## Login -/

theorem coachLogin_pos (s : Store) (u p : JsVal) (hu : u.truthy = true)
    (hp : p.truthy = true) :
    (s.coachLogin (bindParam u) (bindParam p)).length > 0 ↔
      ∃ c ∈ s.coaches, c.hasCredentials u p := by
  rw [gt_iff_lt, List.length_pos, ne_eq, Store.coachLogin, List.filter_eq_nil_iff]
  simp only [Bool.and_eq_true, sqlEq_bindParam hu, sqlEq_bindParam hp, not_forall,
    Classical.not_not, CoachRow.hasCredentials, exists_prop]

theorem playerLogin_pos (s : Store) (u p : JsVal) (hu : u.truthy = true)
    (hp : p.truthy = true) :
    (s.playerLogin (bindParam u) (bindParam p)).length > 0 ↔
      ∃ q ∈ s.players, q.hasCredentials u p := by
  rw [gt_iff_lt, List.length_pos, ne_eq, Store.playerLogin, List.filter_eq_nil_iff]
  simp only [Bool.and_eq_true, sqlEq_bindParam hu, sqlEq_bindParam hp, not_forall,
    Classical.not_not, PlayerRow.hasCredentials, exists_prop]

/-- C3, as stated, fails: on the sample store the pair (`ann`, `s3`) matches a
coach row, and the same pair sent with role `player` is answered 200, not 401,
because a player row carries the same name and password. -/
theorem coach_pair_as_player_not_401 :
    (∃ c ∈ sampleStore.coaches, c.hasCredentials (JsVal.str "ann") (JsVal.str "s3")) ∧
      (login quietEnv sampleStore (post (loginBody "coach"))).res.status = 200 ∧
      (login quietEnv sampleStore (post (loginBody "player"))).res.status = 200 ∧
      (login quietEnv sampleStore (post (loginBody "player"))).res.status ≠ 401 := by
  refine ⟨⟨_, List.mem_singleton_self _, ?_⟩, ?_, ?_, ?_⟩
  · exact ⟨rfl, rfl⟩
  · decide
  · decide
  · decide

/-- C3, amended: when the credential query resolves, a non-empty pair that
matches a coach row is answered 200 with role `coach` under role `coach`; under
role `player` the same pair is answered 401 exactly when no player row has
that pair as its name and password, and 200 otherwise. -/
theorem coach_login_by_role (envC envP : Env) (s : Store) (reqC reqP : Request)
    (u p : JsVal) (hu : u.truthy = true) (hp : p.truthy = true)
    (hm : ∃ c ∈ s.coaches, c.hasCredentials u p)
    (hC : reqC.body.get "username" = u ∧ reqC.body.get "password" = p ∧
      reqC.body.get "role" = JsVal.str "coach")
    (hP : reqP.body.get "username" = u ∧ reqP.body.get "password" = p ∧
      reqP.body.get "role" = JsVal.str "player")
    (hqC : envC.fault 0 = none) (hqP : envP.fault 0 = none) :
    ((login envC s reqC).res.status = 200 ∧
      (login envC s reqC).res.body.lookup "role" = some (Json.val (JsVal.str "coach"))) ∧
    ((login envP s reqP).res.status = 401 ↔ ¬ ∃ q ∈ s.players, q.hasCredentials u p) ∧
    ((login envP s reqP).res.status = 200 ↔ ∃ q ∈ s.players, q.hasCredentials u p) := by
  obtain ⟨hCu, hCp, hCr⟩ := hC
  obtain ⟨hPu, hPp, hPr⟩ := hP
  have hc := (coachLogin_pos s u p hu hp).mpr hm
  have hpl := playerLogin_pos s u p hu hp
  have htc : (JsVal.str "coach").truthy = true := by decide
  have htp : (JsVal.str "player").truthy = true := by decide
  refine ⟨?_, ?_, ?_⟩
  · simp [login, hCu, hCp, hCr, hu, hp, htc, hqC, hc]
    rfl
  · by_cases hq : (s.playerLogin (bindParam u) (bindParam p)).length > 0
    · simp [login, hPu, hPp, hPr, hu, hp, htp, hqP, hq, hpl.mp hq]
    · have hn : ¬ ∃ q ∈ s.players, q.hasCredentials u p := fun h => hq (hpl.mpr h)
      simp [login, hPu, hPp, hPr, hu, hp, htp, hqP, hq, hn]
  · by_cases hq : (s.playerLogin (bindParam u) (bindParam p)).length > 0
    · simp [login, hPu, hPp, hPr, hu, hp, htp, hqP, hq, hpl.mp hq]
    · have hn : ¬ ∃ q ∈ s.players, q.hasCredentials u p := fun h => hq (hpl.mpr h)
      simp [login, hPu, hPp, hPr, hu, hp, htp, hqP, hq, hn]

/-- Witness of the amended C3 on the sample store, whose player table repeats
the coach's pair. -/
theorem coach_login_by_role_witness :
    ((JsVal.str "ann").truthy = true ∧ (JsVal.str "s3").truthy = true ∧
      ∃ c ∈ sampleStore.coaches, c.hasCredentials (JsVal.str "ann") (JsVal.str "s3")) ∧
    ((login quietEnv sampleStore (post (loginBody "coach"))).res.status = 200 ∧
      (login quietEnv sampleStore (post (loginBody "coach"))).res.body.lookup "role" =
        some (Json.val (JsVal.str "coach"))) ∧
    ((login quietEnv sampleStore (post (loginBody "player"))).res.status = 401 ↔
      ¬ ∃ q ∈ sampleStore.players, q.hasCredentials (JsVal.str "ann") (JsVal.str "s3")) ∧
    ((login quietEnv sampleStore (post (loginBody "player"))).res.status = 200 ↔
      ∃ q ∈ sampleStore.players, q.hasCredentials (JsVal.str "ann") (JsVal.str "s3")) :=
  ⟨⟨by decide, by decide, _, List.mem_singleton_self _, rfl, rfl⟩,
    coach_login_by_role quietEnv quietEnv sampleStore (post (loginBody "coach"))
      (post (loginBody "player")) (JsVal.str "ann") (JsVal.str "s3") (by decide) (by decide)
      ⟨_, List.mem_singleton_self _, rfl, rfl⟩ ⟨rfl, rfl, rfl⟩ ⟨rfl, rfl, rfl⟩ rfl rfl⟩

/-- C4: when the credential query resolves, a non-empty name and password that
match some user row are answered 200 with a token whose payload holds the id
and role of the first matching user row and whose expiry lies exactly 3600
seconds after its issuance time. -/
theorem initial_login_token (env : Env) (s : Store) (req : Request)
    (hn : (req.body.get "name").truthy = true)
    (hp : (req.body.get "password").truthy = true)
    (hm : ∃ r ∈ s.users,
      r.hasCredentials (req.body.get "name") (req.body.get "password"))
    (hq : env.fault 0 = none) :
    ∃ u t, s.users.find? (fun r => sqlEq r.name (bindParam (req.body.get "name")) &&
          sqlEq r.password (bindParam (req.body.get "password"))) = some u ∧
      (initialLogin env s req).res.status = 200 ∧
      (initialLogin env s req).res.body.lookup "token" = some (Json.token t) ∧
      t.userId = JsVal.num u.id ∧ t.role = u.role.toJs ∧
      t.exp = t.iat + 3600 := by
  obtain ⟨r, hr, hru, hrp⟩ := hm
  obtain ⟨u, hfind⟩ := exists_find_of_mem
    (fun r => sqlEq r.name (bindParam (req.body.get "name")) &&
      sqlEq r.password (bindParam (req.body.get "password"))) s.users r hr
    (by simp [sqlEq_bindParam hn, sqlEq_bindParam hp, hru, hrp])
  obtain ⟨rest, hfilter⟩ := find_filter_cons _ _ _ hfind
  refine ⟨u, jwtSign (JsVal.num u.id) u.role.toJs (signingKey env) oneHour env.now,
    hfind, ?_, ?_, rfl, rfl, ?_⟩
  · simp [initialLogin, hn, hp, hq, Store.userLogin, hfilter]
  · simp [initialLogin, hn, hp, hq, Store.userLogin, hfilter]
    rfl
  · simp [jwtSign, oneHour]

/-- Witness of C4: user `root` of the sample store. -/
theorem initial_login_token_witness :
    ((rootBody.get "name").truthy = true ∧ (rootBody.get "password").truthy = true) ∧
    ∃ u t, sampleStore.users.find?
        (fun r => sqlEq r.name (bindParam ((post rootBody).body.get "name")) &&
          sqlEq r.password (bindParam ((post rootBody).body.get "password"))) = some u ∧
      (initialLogin quietEnv sampleStore (post rootBody)).res.status = 200 ∧
      (initialLogin quietEnv sampleStore (post rootBody)).res.body.lookup "token" =
        some (Json.token t) ∧
      t.userId = JsVal.num u.id ∧ t.role = u.role.toJs ∧
      t.exp = t.iat + 3600 :=
  ⟨⟨by decide, by decide⟩,
    initial_login_token quietEnv sampleStore (post rootBody) (by decide) (by decide)
      ⟨_, List.mem_singleton_self _, rfl, rfl⟩ rfl⟩

/-- C8, as stated, fails: the sample store and a store whose matching coach
row is a different one are both answered with the same body, made of the
welcome message and the role only; the row found is not returned. -/
theorem login_does_not_return_row :
    (sampleStore.coachLogin (SqlVal.str "ann") (SqlVal.str "s3")).head? =
        some ⟨4, SqlVal.str "Ann", SqlVal.int 40, SqlVal.int 9, SqlVal.int 99,
          SqlVal.str "ann", SqlVal.str "s3"⟩ ∧
      (otherStore.coachLogin (SqlVal.str "ann") (SqlVal.str "s3")).head? =
        some ⟨5, SqlVal.str "Zed", SqlVal.int 52, SqlVal.int 20, SqlVal.int 1,
          SqlVal.str "ann", SqlVal.str "s3"⟩ ∧
      (login quietEnv sampleStore (post (loginBody "coach"))).res =
        ⟨200, [("message", Json.text "Welcome, ann!"),
          ("role", Json.val (JsVal.str "coach"))]⟩ ∧
      (login quietEnv otherStore (post (loginBody "coach"))).res =
        (login quietEnv sampleStore (post (loginBody "coach"))).res := by
  decide

/-- C8, amended: a login with non-empty username and password and role `coach`
or `player` whose credential query returns at least one row is answered 200
with exactly the welcome message for the username and the caller-supplied role
label. -/
theorem login_success_body (env : Env) (s : Store) (req : Request)
    (hu : (req.body.get "username").truthy = true)
    (hp : (req.body.get "password").truthy = true)
    (hq : env.fault 0 = none)
    (hrows : (req.body.get "role" = JsVal.str "coach" ∧
        (s.coachLogin (bindParam (req.body.get "username"))
          (bindParam (req.body.get "password"))).length > 0) ∨
      (req.body.get "role" = JsVal.str "player" ∧
        (s.playerLogin (bindParam (req.body.get "username"))
          (bindParam (req.body.get "password"))).length > 0)) :
    (login env s req).res =
      ⟨200, [("message", Json.text ("Welcome, " ++ (req.body.get "username").toStr env.numberToString ++ "!")),
        ("role", Json.val (req.body.get "role"))]⟩ := by
  have htc : (JsVal.str "coach").truthy = true := by decide
  have htp : (JsVal.str "player").truthy = true := by decide
  rcases hrows with ⟨hr, hl⟩ | ⟨hr, hl⟩
  · simp [login, hu, hp, hr, htc, hq, hl]
  · simp [login, hu, hp, hr, htp, hq, hl]

/-- For a username that is a string the welcome message of a successful login
spells it out, whatever the runtime's rendering of numbers. -/
theorem login_welcomes_string (env : Env) (s : Store) (req : Request) (u : String)
    (hu : req.body.get "username" = JsVal.str u) (hne : u ≠ "")
    (hp : (req.body.get "password").truthy = true)
    (hq : env.fault 0 = none)
    (hr : req.body.get "role" = JsVal.str "coach")
    (hrows : (s.coachLogin (SqlVal.str u) (bindParam (req.body.get "password"))).length > 0) :
    (login env s req).res =
      ⟨200, [("message", Json.text ("Welcome, " ++ u ++ "!")),
        ("role", Json.val (JsVal.str "coach"))]⟩ := by
  have htc : (JsVal.str "coach").truthy = true := by decide
  have htu : (JsVal.str u).truthy = true := by simp [JsVal.truthy, hne]
  have hb : bindParam (JsVal.str u) = SqlVal.str u := rfl
  simp [login, hu, htu, hp, hr, htc, hq, hb, hrows, JsVal.toStr]

/-- Witness of the amended C8: the sample coach logs in. -/
theorem login_success_body_witness :
    (((post (loginBody "coach")).body.get "username").truthy = true ∧
      ((post (loginBody "coach")).body.get "password").truthy = true ∧
      (sampleStore.coachLogin (SqlVal.str "ann") (SqlVal.str "s3")).length > 0) ∧
    (login quietEnv sampleStore (post (loginBody "coach"))).res =
      ⟨200, [("message", Json.text ("Welcome, " ++
          ((post (loginBody "coach")).body.get "username").toStr
            quietEnv.numberToString ++ "!")),
        ("role", Json.val ((post (loginBody "coach")).body.get "role"))]⟩ :=
  ⟨⟨by decide, by decide, by decide⟩,
    login_success_body quietEnv sampleStore (post (loginBody "coach")) (by decide)
      (by decide) rfl (Or.inl ⟨rfl, by decide⟩)⟩

/-! ## Coach id assignment -/

/-- For a coaches table whose ids are safe integers the id assignment is the
intended one: when the field check and the username pre-check pass and none of
the three queries rejects, `POST /add-coach` is answered 201 with a `coachId`
that is also the id of the one row appended to the coaches table; that id is 1
when the table was empty and the maximum id plus one otherwise. -/
theorem new_coach_id_safe (env : Env) (s : Store) (req : Request)
    (hf : FieldsPresent Route.addCoach req)
    (hfree : s.coachesByUsername (bindParam (req.body.get "username")) = [])
    (h0 : env.fault 0 = none) (h1 : env.fault 1 = none) (h2 : env.fault 2 = none)
    (hsafe : SafeIds s) :
    ∃ newId : Int,
      (addCoach env s req).res.status = 201 ∧
      (addCoach env s req).res.body.lookup "coachId" = some (Json.val (JsVal.num newId)) ∧
      (addCoach env s req).store.coaches = s.coaches ++ [coachRowOf newId req.body] ∧
      (s.coaches = [] → newId = 1) ∧
      (∀ m, IsMaxCoachId s m → newId = m + 1) := by
  simp only [FieldsPresent, requiredFields, List.forall_mem_cons] at hf
  obtain ⟨f1, f2, f3, f4, f5, f6, -⟩ := hf
  refine ⟨nextCoachId s.maxIdResult, ?_, ?_, ?_, ?_, ?_⟩
  · simp [addCoach, f1, f2, f3, f4, f5, f6, h0, h1, h2, hfree]
  · simp [addCoach, f1, f2, f3, f4, f5, f6, h0, h1, h2, hfree]
    rfl
  · simp [addCoach, f1, f2, f3, f4, f5, f6, h0, h1, h2, hfree, Store.insertCoach, coachRowOf]
  · exact nextCoachId_of_empty s
  · intro m hm
    obtain ⟨c, hc, hcm⟩ := hm.1
    have hb := hsafe c hc
    rw [hcm] at hb
    exact nextCoachId_of_max s m hm hb

/-- The safe-id statement applies to the sample store, whose maximum coach id
is 4. -/
theorem new_coach_id_safe_witness :
    (FieldsPresent Route.addCoach (post freshCoachBody) ∧ IsMaxCoachId sampleStore 4 ∧
      SafeIds sampleStore) ∧
    ∃ newId : Int,
      (addCoach quietEnv sampleStore (post freshCoachBody)).res.status = 201 ∧
      (addCoach quietEnv sampleStore (post freshCoachBody)).res.body.lookup "coachId" =
        some (Json.val (JsVal.num newId)) ∧
      (addCoach quietEnv sampleStore (post freshCoachBody)).store.coaches =
        sampleStore.coaches ++ [coachRowOf newId (post freshCoachBody).body] ∧
      (sampleStore.coaches = [] → newId = 1) ∧
      (∀ m, IsMaxCoachId sampleStore m → newId = m + 1) :=
  ⟨⟨by decide, ⟨⟨_, List.mem_singleton_self _, rfl⟩, by decide⟩, by decide⟩,
    new_coach_id_safe quietEnv sampleStore (post freshCoachBody) (by decide) (by decide)
      rfl rfl rfl (by decide)⟩

/-- C5 fails where double arithmetic stops being exact: on a coaches table
whose maximum id is 2^53 = 9007199254740992, a request that passes the field
check and the username pre-check, with no query rejected, is answered 201 with
coachId 9007199254740992 and a second row with that id is inserted; the new
id is the maximum id itself, not the maximum id plus one. -/
theorem new_coach_id_repeats_max :
    IsMaxCoachId bigStore 9007199254740992 ∧
      FieldsPresent Route.addCoach (post freshCoachBody) ∧
      bigStore.coachesByUsername (bindParam (freshCoachBody.get "username")) = [] ∧
      (addCoach quietEnv bigStore (post freshCoachBody)).res = created 9007199254740992 ∧
      (addCoach quietEnv bigStore (post freshCoachBody)).store.coaches =
        bigStore.coaches ++ [coachRowOf 9007199254740992 freshCoachBody] ∧
      (9007199254740992 : Int) ≠ 9007199254740992 + 1 := by
  refine ⟨⟨⟨_, List.mem_singleton_self _, rfl⟩, ?_⟩, ?_, ?_, ?_, ?_, ?_⟩ <;> decide

/-! ## Coach lookup -/

theorem coachWithTeam_head (s : Store) (n : SqlVal) (c : CoachRow)
    (hfind : s.coaches.find? (fun c => sqlEq c.name n) = some c)
    (hno : ∀ t ∈ s.teams, sqlEq c.associated_with (SqlVal.int t.id) = false) :
    ∃ rest, s.coachWithTeam n = CoachInfo.project (c, none) :: rest := by
  unfold Store.coachWithTeam Store.coachLeftJoinTeam
  generalize s.coaches = cs at hfind
  induction cs with
  | nil => simp at hfind
  | cons a cs ih =>
    rw [List.flatMap_cons, List.filter_append, List.map_append]
    by_cases ha : sqlEq a.name n = true
    · simp only [List.find?_cons, ha, Option.some.injEq] at hfind
      subst hfind
      have hnil : s.teams.filter (fun t => sqlEq a.associated_with (SqlVal.int t.id)) = [] := by
        rw [List.filter_eq_nil_iff]
        intro t ht
        simp [hno t ht]
      rw [hnil]
      simp [ha]
    · simp only [Bool.not_eq_true] at ha
      simp only [List.find?_cons, ha] at hfind
      obtain ⟨rest, hrest⟩ := ih hfind
      refine ⟨rest, ?_⟩
      rw [hrest]
      have hnil : List.filter (fun p : CoachRow × Option TeamRow => sqlEq p.1.name n)
          (match s.teams.filter (fun t => sqlEq a.associated_with (SqlVal.int t.id)) with
            | [] => [(a, none)]
            | t :: ts => (t :: ts).map fun t => (a, some t)) = [] := by
        rw [List.filter_eq_nil_iff]
        intro x hx
        have hx1 : x.1 = a := by
          split at hx
          · simp only [List.mem_singleton] at hx
            rw [hx]
          · obtain ⟨t, -, ht⟩ := List.mem_map.mp hx
            rw [← ht]
        simp [hx1, ha]
      rw [hnil]
      simp

/-- C6: when the lookup query resolves and the coach named X (the first such
row) has an `associated_with` that equals the id of no team row, then
`GET /api/coach?name=X` is answered 200 with that coach's name, experience,
age and associated_with, and with `team` equal to `null`. -/
theorem coach_without_team (env : Env) (s : Store) (req : Request) (c : CoachRow)
    (hx : (req.query.get "name").truthy = true)
    (hc : s.coaches.find? (fun r => sqlEq r.name (bindParam (req.query.get "name"))) = some c)
    (hno : ∀ t ∈ s.teams, c.associated_with ≠ SqlVal.int t.id)
    (hq : env.fault 0 = none) :
    (apiCoach env s req).res =
      ⟨200, [("name", Json.val c.name.toJs), ("experience", Json.val c.experience.toJs),
        ("age", Json.val c.age.toJs), ("team", Json.val JsVal.null),
        ("associated_with", Json.val c.associated_with.toJs)]⟩ := by
  obtain ⟨rest, hrest⟩ := coachWithTeam_head s _ c hc
    (fun t ht => by simp [sqlEq, hno t ht])
  simp [apiCoach, hx, hq, hrest, CoachInfo.toJson, CoachInfo.project, SqlVal.toJs]

/-- Witness of C6: coach `Ann` of the sample store is associated with team 99,
which does not exist. -/
theorem coach_without_team_witness :
    ((annQuery.query.get "name").truthy = true ∧
      ∀ t ∈ sampleStore.teams, SqlVal.int 99 ≠ SqlVal.int t.id) ∧
    (apiCoach quietEnv sampleStore annQuery).res =
      ⟨200, [("name", Json.val (JsVal.str "Ann")), ("experience", Json.val (JsVal.num 9)),
        ("age", Json.val (JsVal.num 40)), ("team", Json.val JsVal.null),
        ("associated_with", Json.val (JsVal.num 99))]⟩ :=
  ⟨⟨by decide, by decide⟩,
    coach_without_team quietEnv sampleStore annQuery
      ⟨4, SqlVal.str "Ann", SqlVal.int 40, SqlVal.int 9, SqlVal.int 99,
        SqlVal.str "ann", SqlVal.str "s3"⟩ (by decide) (by decide) (by decide) rfl⟩

/-! ## Shape of failure responses -/

/-- C7 fails on `GET /api/coach`: whatever the store and environment, a request
without a `name` is answered 400 with a body whose only field is `error`; an
unknown name is answered 404 and a rejected query 500 in the same shape.  None
of the three bodies has a `message` field. -/
theorem api_coach_failure_has_no_message (env : Env) (s : Store) :
    ((apiCoach env s (getQuery [])).res =
        ⟨400, [("error", Json.text "Coach name is required")]⟩ ∧
      (apiCoach env s (getQuery [])).res.body.lookup "message" = none) ∧
    ((apiCoach quietEnv sampleStore (getQuery [("name", JsVal.str "Nobody")])).res =
        ⟨404, [("error", Json.text "Coach not found")]⟩ ∧
      (apiCoach quietEnv sampleStore
        (getQuery [("name", JsVal.str "Nobody")])).res.body.lookup "message" = none) ∧
    ((apiCoach downEnv s annQuery).res =
        ⟨500, [("error", Json.text "Internal Server Error")]⟩ ∧
      (apiCoach downEnv s annQuery).res.body.lookup "message" = none) := by
  refine ⟨⟨rfl, rfl⟩, ⟨?_, ?_⟩, ⟨rfl, rfl⟩⟩
  · decide
  · decide

/-- On the seven routes other than `GET /api/coach`, every failure response
(400, 401, 404 or 500) carries a `message` string, in every environment. -/
theorem failure_has_message_elsewhere (r : Route) (env : Env) (s : Store) (req : Request)
    (hr : r ≠ Route.apiCoach) (hfail : (handle r env s req).res.isFailure = true) :
    (handle r env s req).res.hasMessage := by
  cases r
  · revert hfail
    simp only [handle, signup]
    repeat' split
    all_goals exact fun _ => ⟨_, rfl⟩
  · revert hfail
    simp only [handle, addCoach]
    repeat' split
    all_goals exact fun _ => ⟨_, rfl⟩
  · revert hfail
    simp only [handle, login]
    repeat' split
    all_goals exact fun _ => ⟨_, rfl⟩
  · revert hfail
    simp only [handle, addTeam]
    repeat' split
    all_goals exact fun _ => ⟨_, rfl⟩
  · exact absurd rfl hr
  · revert hfail
    simp only [handle, addPlayer]
    repeat' split
    all_goals exact fun _ => ⟨_, rfl⟩
  · revert hfail
    simp only [handle, apiPlayer]
    repeat' split
    all_goals first | exact fun _ => ⟨_, rfl⟩ | (intro h; simp [Response.isFailure] at h)
  · revert hfail
    simp only [handle, initialLogin]
    repeat' split
    all_goals exact fun _ => ⟨_, rfl⟩

/-! ## The store invariant under sequential operation -/

theorem signup_tables (env : Env) (s : Store) (req : Request) :
    (signup env s req).store.coaches = s.coaches ∧
      (signup env s req).store.players = s.players := by
  simp only [signup]
  repeat' split
  all_goals simp [Store.insertUser]

theorem login_store (env : Env) (s : Store) (req : Request) :
    (login env s req).store = s := by
  simp only [login]
  repeat' split
  all_goals rfl

theorem addTeam_tables (env : Env) (s : Store) (req : Request) :
    (addTeam env s req).store.coaches = s.coaches ∧
      (addTeam env s req).store.players = s.players := by
  simp only [addTeam]
  repeat' split
  all_goals simp [Store.insertTeam]

theorem apiCoach_store (env : Env) (s : Store) (req : Request) :
    (apiCoach env s req).store = s := by
  simp only [apiCoach]
  repeat' split
  all_goals rfl

theorem apiPlayer_store (env : Env) (s : Store) (req : Request) :
    (apiPlayer env s req).store = s := by
  simp only [apiPlayer]
  repeat' split
  all_goals rfl

theorem initialLogin_store (env : Env) (s : Store) (req : Request) :
    (initialLogin env s req).store = s := by
  simp only [initialLogin]
  repeat' split
  all_goals rfl

theorem addCoach_store (env : Env) (s : Store) (req : Request) :
    (addCoach env s req).store = s ∨
      ((req.body.get "username").truthy = true ∧
        s.coachesByUsername (bindParam (req.body.get "username")) = [] ∧
        (addCoach env s req).store =
          s.insertCoach (nextCoachId s.maxIdResult) (bindParam (req.body.get "name"))
            (bindParam (req.body.get "age")) (bindParam (req.body.get "experience"))
            (bindParam (req.body.get "associated_with"))
            (bindParam (req.body.get "username")) (bindParam (req.body.get "password"))) := by
  simp only [addCoach]
  split
  · exact Or.inl rfl
  · rename_i hv
    split
    · exact Or.inl rfl
    · split
      · exact Or.inl rfl
      · rename_i hlen
        split
        · exact Or.inl rfl
        · split
          · exact Or.inl rfl
          · refine Or.inr ⟨?_, ?_, rfl⟩
            · simp only [Bool.or_eq_true, Bool.not_eq_true', not_or,
                Bool.not_eq_false] at hv
              exact hv.1.2
            · simpa using hlen

theorem addPlayer_store (env : Env) (s : Store) (req : Request) :
    (addPlayer env s req).store = s ∨
      ((req.body.get "email").truthy = true ∧
        s.playersByEmail (bindParam (req.body.get "email")) = [] ∧
        (addPlayer env s req).store =
          s.insertPlayer (bindParam (req.body.get "name"))
            (bindParam (req.body.get "position")) (bindParam (req.body.get "age"))
            (bindParam (req.body.get "team")) (bindParam (req.body.get "email"))
            (bindParam (req.body.get "password"))) := by
  simp only [addPlayer]
  split
  · exact Or.inl rfl
  · rename_i hv
    split
    · exact Or.inl rfl
    · split
      · exact Or.inl rfl
      · rename_i hlen
        split
        · exact Or.inl rfl
        · refine Or.inr ⟨?_, ?_, rfl⟩
          · simp only [Bool.or_eq_true, Bool.not_eq_true', not_or,
              Bool.not_eq_false] at hv
            exact hv.1.2
          · simpa using hlen

theorem insertCoach_inv (s : Store) (req : Request) (h : StoreInv s) (hsafe : SafeIds s)
    (hu : (req.body.get "username").truthy = true)
    (hfree : s.coachesByUsername (bindParam (req.body.get "username")) = []) :
    StoreInv (s.insertCoach (nextCoachId s.maxIdResult) (bindParam (req.body.get "name"))
      (bindParam (req.body.get "age")) (bindParam (req.body.get "experience"))
      (bindParam (req.body.get "associated_with"))
      (bindParam (req.body.get "username")) (bindParam (req.body.get "password"))) := by
  obtain ⟨hid, hname, hmail⟩ := h
  refine ⟨?_, ?_, hmail⟩
  · simp only [Store.insertCoach, List.map_append, List.map_cons, List.map_nil]
    rw [List.nodup_append]
    refine ⟨hid, List.nodup_singleton _, ?_⟩
    intro x hx hx'
    rw [List.mem_singleton] at hx'
    obtain ⟨c, hc, rfl⟩ := List.mem_map.mp hx
    have := nextCoachId_gt s hsafe c hc
    omega
  · simp only [Store.insertCoach, List.map_append, List.map_cons, List.map_nil]
    rw [List.nodup_append]
    refine ⟨hname, List.nodup_singleton _, ?_⟩
    intro x hx hx'
    rw [List.mem_singleton] at hx'
    obtain ⟨c, hc, rfl⟩ := List.mem_map.mp hx
    simp only [Store.coachesByUsername, List.filter_eq_nil_iff] at hfree
    exact hfree c hc ((sqlEq_bindParam hu).mpr hx')

theorem insertPlayer_inv (s : Store) (req : Request) (h : StoreInv s)
    (hu : (req.body.get "email").truthy = true)
    (hfree : s.playersByEmail (bindParam (req.body.get "email")) = []) :
    StoreInv (s.insertPlayer (bindParam (req.body.get "name"))
      (bindParam (req.body.get "position")) (bindParam (req.body.get "age"))
      (bindParam (req.body.get "team")) (bindParam (req.body.get "email"))
      (bindParam (req.body.get "password"))) := by
  obtain ⟨hid, hname, hmail⟩ := h
  refine ⟨hid, hname, ?_⟩
  simp only [Store.insertPlayer, List.map_append, List.map_cons, List.map_nil]
  rw [List.nodup_append]
  refine ⟨hmail, List.nodup_singleton _, ?_⟩
  intro x hx hx'
  rw [List.mem_singleton] at hx'
  obtain ⟨c, hc, rfl⟩ := List.mem_map.mp hx
  simp only [Store.playersByEmail, List.filter_eq_nil_iff] at hfree
  exact hfree c hc ((sqlEq_bindParam hu).mpr hx')

/-- For a coaches table whose ids are safe integers, pairwise distinctness of
coach ids, of coach usernames and of player emails is preserved by every
request to any of the eight routes, in every environment. -/
theorem store_invariant_preserved_safe (r : Route) (env : Env) (s : Store) (req : Request)
    (h : StoreInv s) (hsafe : SafeIds s) : StoreInv (handle r env s req).store := by
  cases r
  · obtain ⟨hc, hp⟩ := signup_tables env s req
    simpa only [handle, StoreInv, hc, hp] using h
  · rcases addCoach_store env s req with he | ⟨hu, hfree, he⟩
    · simpa only [handle, he] using h
    · simpa only [handle, he] using insertCoach_inv s req h hsafe hu hfree
  · simpa only [handle, login_store] using h
  · obtain ⟨hc, hp⟩ := addTeam_tables env s req
    simpa only [handle, StoreInv, hc, hp] using h
  · simpa only [handle, apiCoach_store] using h
  · rcases addPlayer_store env s req with he | ⟨hu, hfree, he⟩
    · simpa only [handle, he] using h
    · simpa only [handle, he] using insertPlayer_inv s req h hu hfree
  · simpa only [handle, apiPlayer_store] using h
  · simpa only [handle, initialLogin_store] using h

/-- Distinctness of coach usernames and of player emails is preserved by every
request on every store, whatever the coach ids are. -/
theorem names_invariant_preserved (r : Route) (env : Env) (s : Store) (req : Request)
    (h : (s.coaches.map CoachRow.username).Nodup ∧ (s.players.map PlayerRow.email).Nodup) :
    ((handle r env s req).store.coaches.map CoachRow.username).Nodup ∧
      ((handle r env s req).store.players.map PlayerRow.email).Nodup := by
  obtain ⟨hname, hmail⟩ := h
  cases r
  · obtain ⟨hc, hp⟩ := signup_tables env s req
    simpa only [handle, hc, hp] using And.intro hname hmail
  · rcases addCoach_store env s req with he | ⟨hu, hfree, he⟩
    · simpa only [handle, he] using And.intro hname hmail
    · simp only [handle, he, Store.insertCoach, List.map_append, List.map_cons, List.map_nil]
      refine ⟨?_, hmail⟩
      rw [List.nodup_append]
      refine ⟨hname, List.nodup_singleton _, ?_⟩
      intro x hx hx'
      rw [List.mem_singleton] at hx'
      obtain ⟨c, hc, rfl⟩ := List.mem_map.mp hx
      simp only [Store.coachesByUsername, List.filter_eq_nil_iff] at hfree
      exact hfree c hc ((sqlEq_bindParam hu).mpr hx')
  · simpa only [handle, login_store] using And.intro hname hmail
  · obtain ⟨hc, hp⟩ := addTeam_tables env s req
    simpa only [handle, hc, hp] using And.intro hname hmail
  · simpa only [handle, apiCoach_store] using And.intro hname hmail
  · rcases addPlayer_store env s req with he | ⟨hu, hfree, he⟩
    · simpa only [handle, he] using And.intro hname hmail
    · simp only [handle, he, Store.insertPlayer, List.map_append, List.map_cons,
        List.map_nil]
      refine ⟨hname, ?_⟩
      rw [List.nodup_append]
      refine ⟨hmail, List.nodup_singleton _, ?_⟩
      intro x hx hx'
      rw [List.mem_singleton] at hx'
      obtain ⟨c, hc, rfl⟩ := List.mem_map.mp hx
      simp only [Store.playersByEmail, List.filter_eq_nil_iff] at hfree
      exact hfree c hc ((sqlEq_bindParam hu).mpr hx')
  · simpa only [handle, apiPlayer_store] using And.intro hname hmail
  · simpa only [handle, initialLogin_store] using And.intro hname hmail

/-- C10 fails where double arithmetic stops being exact: the store whose only
coach has id 2^53 satisfies the invariant, one `POST /add-coach` with a fresh
username is answered 201, and afterwards two coach rows carry the id
9007199254740992, so the invariant no longer holds. -/
theorem store_invariant_broken_at_big_id :
    StoreInv bigStore ∧
      (handle Route.addCoach quietEnv bigStore (post freshCoachBody)).res.status = 201 ∧
      (handle Route.addCoach quietEnv bigStore (post freshCoachBody)).store.coaches.map
        CoachRow.id = [9007199254740992, 9007199254740992] ∧
      ¬ StoreInv (handle Route.addCoach quietEnv bigStore (post freshCoachBody)).store := by
  refine ⟨?_, ?_, ?_, ?_⟩ <;> decide

/-! ## Two interleaved add-coach requests -/

/-- The step machine is the handler cut at its `await` points: three steps from
the start give the handler's response and store. -/
theorem addCoachStep_refines (env : Env) (s : Store) (req : Request) :
    addCoachStep env req
        (addCoachStep env req (addCoachStep env req CoachTask.fresh s).1
          (addCoachStep env req CoachTask.fresh s).2).1
        (addCoachStep env req (addCoachStep env req CoachTask.fresh s).1
          (addCoachStep env req CoachTask.fresh s).2).2 =
      (CoachTask.done (addCoach env s req).res, (addCoach env s req).store) := by
  by_cases hv : (!(req.body.get "name").truthy || !(req.body.get "age").truthy ||
      !(req.body.get "experience").truthy || !(req.body.get "associated_with").truthy ||
      !(req.body.get "username").truthy || !(req.body.get "password").truthy) = true
  · simp [addCoachStep, addCoach, hv]
  · rw [Bool.not_eq_true] at hv
    cases h0 : env.fault 0 with
    | some e => simp [addCoachStep, addCoach, hv, h0]
    | none =>
      by_cases hl : (s.coachesByUsername (bindParam (req.body.get "username"))).length > 0
      · simp [addCoachStep, addCoach, hv, h0, hl]
      · cases h1 : env.fault 1 with
        | some e => simp [addCoachStep, addCoach, hv, h0, hl, h1]
        | none =>
          cases h2 : env.fault 2 with
          | some e => simp [addCoachStep, addCoach, hv, h0, hl, h1, h2]
          | none => simp [addCoachStep, addCoach, hv, h0, hl, h1, h2]

theorem race_reads (envA envB : Env) (s : Store) (reqA reqB : Request)
    (hA : FieldsPresent Route.addCoach reqA) (hB : FieldsPresent Route.addCoach reqB)
    (hfreeA : s.coachesByUsername (bindParam (reqA.body.get "username")) = [])
    (hfreeB : s.coachesByUsername (bindParam (reqB.body.get "username")) = [])
    (hqA : envA.fault 0 = none ∧ envA.fault 1 = none)
    (hqB : envB.fault 0 = none ∧ envB.fault 1 = none)
    (w x y z : Bool) (hcount : [w, x, y, z].count true = 2) :
    raceRun envA envB reqA reqB s [w, x, y, z] =
      ⟨CoachTask.gotMax (nextCoachId s.maxIdResult),
        CoachTask.gotMax (nextCoachId s.maxIdResult), s⟩ := by
  simp only [FieldsPresent, requiredFields, List.forall_mem_cons] at hA hB
  obtain ⟨a1, a2, a3, a4, a5, a6, -⟩ := hA
  obtain ⟨b1, b2, b3, b4, b5, b6, -⟩ := hB
  obtain ⟨qa0, qa1⟩ := hqA
  obtain ⟨qb0, qb1⟩ := hqB
  cases w <;> cases x <;> cases y <;> cases z <;> simp at hcount <;>
    simp [raceRun, raceStep, addCoachStep, a1, a2, a3, a4, a5, a6, b1, b2, b3, b4, b5, b6,
      qa0, qa1, qb0, qb1, hfreeA, hfreeB]

theorem race_inserts (envA envB : Env) (s : Store) (reqA reqB : Request) (n : Int)
    (x : Bool) (hA : envA.fault 2 = none) (hB : envB.fault 2 = none) :
    ([x, !x].foldl (raceStep envA envB reqA reqB)
        ⟨CoachTask.gotMax n, CoachTask.gotMax n, s⟩).a = CoachTask.done (created n) ∧
      ([x, !x].foldl (raceStep envA envB reqA reqB)
        ⟨CoachTask.gotMax n, CoachTask.gotMax n, s⟩).b = CoachTask.done (created n) ∧
      ([x, !x].foldl (raceStep envA envB reqA reqB)
        ⟨CoachTask.gotMax n, CoachTask.gotMax n, s⟩).store.coaches =
          s.coaches ++ (if x then [coachRowOf n reqB.body, coachRowOf n reqA.body]
            else [coachRowOf n reqA.body, coachRowOf n reqB.body]) := by
  cases x <;>
    simp [raceStep, addCoachStep, hA, hB, created, Store.insertCoach, coachRowOf]

theorem schedule_shape (sched : List Bool) (h : readsBeforeInserts sched = true) :
    ∃ w x y z e, sched = [w, x, y, z, e, !e] ∧ [w, x, y, z].count true = 2 := by
  simp only [readsBeforeInserts, Bool.and_eq_true, beq_iff_eq] at h
  obtain ⟨⟨hlen, hpre⟩, hpost⟩ := h
  match sched, hlen, hpre, hpost with
  | [w, x, y, z, e, f], _, hpre, hpost =>
    refine ⟨w, x, y, z, e, ?_, by simpa using hpre⟩
    cases e <;> cases f <;> simp_all

theorem race_rejected_insert (envA envB : Env) (s : Store) (reqA reqB : Request)
    (sched : List Bool) (e : String)
    (hA : FieldsPresent Route.addCoach reqA) (hB : FieldsPresent Route.addCoach reqB)
    (hfreeA : s.coachesByUsername (bindParam (reqA.body.get "username")) = [])
    (hfreeB : s.coachesByUsername (bindParam (reqB.body.get "username")) = [])
    (hqA : ∀ k, envA.fault k = none)
    (hqB : envB.fault 0 = none ∧ envB.fault 1 = none ∧ envB.fault 2 = some e)
    (hs : readsBeforeInserts sched = true) :
    (raceRun envA envB reqA reqB s sched).a =
        CoachTask.done (created (nextCoachId s.maxIdResult)) ∧
      (raceRun envA envB reqA reqB s sched).b =
        CoachTask.done ⟨500, [("message", Json.text "An error occurred while adding the coach."),
          ("error", Json.text e)]⟩ ∧
      (raceRun envA envB reqA reqB s sched).store.coaches =
        s.coaches ++ [coachRowOf (nextCoachId s.maxIdResult) reqA.body] := by
  obtain ⟨w, x, y, z, f, rfl, hcount⟩ := schedule_shape sched hs
  have hsplit : raceRun envA envB reqA reqB s [w, x, y, z, f, !f] =
      [f, !f].foldl (raceStep envA envB reqA reqB)
        (raceRun envA envB reqA reqB s [w, x, y, z]) := rfl
  rw [hsplit, race_reads envA envB s reqA reqB hA hB hfreeA hfreeB
    ⟨hqA 0, hqA 1⟩ ⟨hqB.1, hqB.2.1⟩ w x y z hcount]
  cases f <;>
    simp [raceStep, addCoachStep, hqA 2, hqB.2.2, created, Store.insertCoach, coachRowOf]

/-- C9, as stated, fails: on the sample store two add-coach requests with the
distinct fresh usernames `bob` and `cy`, stepped alternately so that both read
`MAX(id)` before either insert, are both answered 201 with coachId 5. -/
theorem race_assigns_same_coach_id :
    readsBeforeInserts [false, true, false, true, false, true] = true ∧
      freshCoachBody.get "username" ≠ secondCoachBody.get "username" ∧
      (raceRun quietEnv quietEnv (post freshCoachBody) (post secondCoachBody) sampleStore
        [false, true, false, true, false, true]).a = CoachTask.done (created 5) ∧
      (raceRun quietEnv quietEnv (post freshCoachBody) (post secondCoachBody) sampleStore
        [false, true, false, true, false, true]).b = CoachTask.done (created 5) := by
  decide

/-- C9, amended: for two add-coach requests with all fields present and
usernames unused in the store, run under any schedule in which both read
`MAX(id)` before either insert, and with a store that accepts every statement,
both are answered 201 with the same coachId, and the coaches table ends with
two new rows carrying that id; the id is 1 when the table they read was empty,
and its maximum id plus one when that maximum is a safe integer. -/
theorem race_same_coach_id (envA envB : Env) (s : Store) (reqA reqB : Request)
    (sched : List Bool)
    (hA : FieldsPresent Route.addCoach reqA) (hB : FieldsPresent Route.addCoach reqB)
    (hfreeA : s.coachesByUsername (bindParam (reqA.body.get "username")) = [])
    (hfreeB : s.coachesByUsername (bindParam (reqB.body.get "username")) = [])
    (hqA : ∀ k, envA.fault k = none) (hqB : ∀ k, envB.fault k = none)
    (hs : readsBeforeInserts sched = true) :
    ∃ n : Int,
      (raceRun envA envB reqA reqB s sched).a = CoachTask.done (created n) ∧
      (raceRun envA envB reqA reqB s sched).b = CoachTask.done (created n) ∧
      (∃ r₁ r₂, (raceRun envA envB reqA reqB s sched).store.coaches = s.coaches ++ [r₁, r₂] ∧
        r₁.id = n ∧ r₂.id = n) ∧
      (s.coaches = [] → n = 1) ∧
      (∀ m, IsMaxCoachId s m → m.natAbs < 2 ^ 53 → n = m + 1) := by
  obtain ⟨w, x, y, z, e, rfl, hcount⟩ := schedule_shape sched hs
  have hsplit : raceRun envA envB reqA reqB s [w, x, y, z, e, !e] =
      [e, !e].foldl (raceStep envA envB reqA reqB)
        (raceRun envA envB reqA reqB s [w, x, y, z]) := rfl
  rw [hsplit, race_reads envA envB s reqA reqB hA hB hfreeA hfreeB
    ⟨hqA 0, hqA 1⟩ ⟨hqB 0, hqB 1⟩ w x y z hcount]
  obtain ⟨h1, h2, h3⟩ := race_inserts envA envB s reqA reqB (nextCoachId s.maxIdResult) e
    (hqA 2) (hqB 2)
  refine ⟨nextCoachId s.maxIdResult, h1, h2, ?_, nextCoachId_of_empty s,
    nextCoachId_of_max s⟩
  rw [h3]
  cases e
  · exact ⟨_, _, rfl, rfl, rfl⟩
  · exact ⟨_, _, rfl, rfl, rfl⟩

/-- Witness of the amended C9: the two fresh usernames on the sample store,
with the second run going first at every turn. -/
theorem race_same_coach_id_witness :
    (FieldsPresent Route.addCoach (post freshCoachBody) ∧
      FieldsPresent Route.addCoach (post secondCoachBody) ∧
      readsBeforeInserts [true, false, true, false, true, false] = true) ∧
    ∃ n : Int,
      (raceRun quietEnv quietEnv (post freshCoachBody) (post secondCoachBody) sampleStore
        [true, false, true, false, true, false]).a = CoachTask.done (created n) ∧
      (raceRun quietEnv quietEnv (post freshCoachBody) (post secondCoachBody) sampleStore
        [true, false, true, false, true, false]).b = CoachTask.done (created n) ∧
      (∃ r₁ r₂, (raceRun quietEnv quietEnv (post freshCoachBody) (post secondCoachBody)
          sampleStore [true, false, true, false, true, false]).store.coaches =
            sampleStore.coaches ++ [r₁, r₂] ∧ r₁.id = n ∧ r₂.id = n) ∧
      (sampleStore.coaches = [] → n = 1) ∧
      (∀ m, IsMaxCoachId sampleStore m → m.natAbs < 2 ^ 53 → n = m + 1) :=
  ⟨⟨by decide, by decide, by decide⟩,
    race_same_coach_id quietEnv quietEnv sampleStore (post freshCoachBody)
      (post secondCoachBody) [true, false, true, false, true, false] (by decide) (by decide)
      (by decide) (by decide) (fun _ => rfl) (fun _ => rfl) (by decide)⟩

end Server
